import Mathlib

/-!
Verification development for the rag-automotive-analysis repository.

Python strings are modelled as lists of characters (`Str`); the external
services (ChromaDB similarity search, the LLM chain) are modelled as explicit
function parameters returning `Except` so that a raising call and a normal
return are both representable.  Every definition below is a direct translation
of the corresponding Python function, with the source location given in its
doc comment.
-/

set_option maxRecDepth 20000
set_option synthInstance.maxHeartbeats 1000000
set_option maxHeartbeats 1000000

/-- Python `str`, modelled as a list of characters. -/
abbrev Str := List Char

/-- Python substring containment `needle in hay` (`in` on `str`). -/
def containsSub (needle hay : Str) : Bool :=
  needle.isPrefixOf hay ||
    match hay with
    | [] => false
    | _ :: t => containsSub needle t

/-- Python `str.lower()` (all strings in this code base are ASCII). -/
def lowerStr (s : Str) : Str := s.map Char.toLower

/-- Python `str.upper()` (all strings in this code base are ASCII). -/
def upperStr (s : Str) : Str := s.map Char.toUpper

/-- The metadata dict attached to every page/chunk by
`DocumentProcessor.load_pdfs_from_directory` (src/src/document_processor.py,
lines 134-142): company, source_file, year, page. -/
structure Metadata where
  company : Str
  source_file : Str
  year : Str
  page : Nat
deriving DecidableEq

/-- A langchain `Document`: page content plus metadata. -/
structure Document where
  page_content : Str
  metadata : Metadata
deriving DecidableEq

/-! ## Year extraction (src/src/document_processor.py, lines 233-245) -/

/-- Whether a 4-character string matches the regex `20\d{2}`. -/
def isYear20dd (y : Str) : Bool :=
  match y with
  | [c1, c2, c3, c4] => (c1 == '2') && (c2 == '0') && c3.isDigit && c4.isDigit
  | _ => false

/-- `re.search(r'20\d{2}', filename)`: the leftmost 4-character substring
matching `20` followed by two digits, scanning one position at a time. -/
def findFirst20dd : Str → Option Str
  | c1 :: c2 :: c3 :: c4 :: rest =>
    if isYear20dd [c1, c2, c3, c4] then some [c1, c2, c3, c4]
    else findFirst20dd (c2 :: c3 :: c4 :: rest)
  | _ => none

/-- `DocumentProcessor._extract_year_from_filename`:
`match.group(0)` of the first `20\d{2}` match, else `"Unknown"`. -/
def extract_year_from_filename (filename : Str) : Str :=
  match findFirst20dd filename with
  | some y => y
  | none => ("Unknown").data

/-! ## Vector store adapter (src/src/vector_store.py) -/

/-- The external ChromaDB vector store held by the manager, modelled
abstractly by its two search entry points (embedding and similarity are
delegated to the library; similarity scores are opaque values modelled as
`Int` since no claim depends on their numeric type). -/
structure Chroma where
  similarity_search : Str → Nat → Option (List (Str × Str)) → List Document
  similarity_search_with_score : Str → Nat → List (Document × Int)

/-- `VectorStoreManager.search` (lines 165-190): raises `ValueError` when
`self.vectorstore is None`, otherwise delegates to `similarity_search`,
passing the metadata filter only when `filter_dict` is truthy. -/
def search (vectorstore : Option Chroma) (query_text : Str) (k : Nat)
    (filter_dict : Option (List (Str × Str))) : Except Str (List Document) :=
  match vectorstore with
  | none => .error ("Vector store not initialized. Call load_vectorstore() or create_vectorstore() first.").data
  | some vs =>
    if (filter_dict.getD []) ≠ [] then
      .ok (vs.similarity_search query_text k filter_dict)
    else
      .ok (vs.similarity_search query_text k none)

/-- `VectorStoreManager.search_with_score` (lines 192-207): raises
`ValueError` when `self.vectorstore is None`, otherwise delegates. -/
def search_with_score (vectorstore : Option Chroma) (query_text : Str) (k : Nat) :
    Except Str (List (Document × Int)) :=
  match vectorstore with
  | none => .error ("Vector store not initialized.").data
  | some vs => .ok (vs.similarity_search_with_score query_text k)

/-- The `ValueError` message raised by `load_vectorstore` when the opened
collection has zero entries (src/src/vector_store.py, line 123). -/
def emptyStoreMsg : Str := ("Vector store is empty. Please create a new one.").data

/-- Models the `Chroma(persist_directory=..., ...)` constructor of the
langchain/chromadb dependency: it calls `get_or_create_collection`, so opening
a path holding no persisted index yields a fresh empty collection (count 0)
rather than raising.  The disk state is the entry count of the persisted
index, `none` when no index has been persisted. -/
def chromaOpen (disk : Option Nat) : Nat := disk.getD 0

/-- `VectorStoreManager.load_vectorstore` (lines 99-132): opens the
collection (assigning `self.vectorstore`), then raises `ValueError` if it
contains zero entries.  Returns the query outcome together with the
`vectorstore` field after the call (the entry count stands for the loaded
store). -/
def load_vectorstore (disk : Option Nat) : Except Str Nat × Option Nat :=
  let count := chromaOpen disk
  if count = 0 then (.error emptyStoreMsg, some count)
  else (.ok count, some count)

/-! ## Chunking (src/src/document_processor.py, lines 190-212) -/

/-- langchain `RecursiveCharacterTextSplitter.split_documents` restricted to
one document: the text-splitting itself is external (parameter `split`); the
library builds each chunk as a new `Document` carrying a copy of the source
document metadata (`add_start_index` is left at its `False` default, so
nothing is added to the copy). -/
def splitDocuments (split : Str → List Str) (doc : Document) : List Document :=
  (split doc.page_content).map (fun t => { page_content := t, metadata := doc.metadata })

/-- `DocumentProcessor.chunk_documents`: `chunks = []`, then for each
document extend `chunks` with `split_documents([doc])`. -/
def chunk_documents (split : Str → List Str) (documents : List Document) : List Document :=
  documents.foldl (fun chunks doc => chunks ++ splitDocuments split doc) []

/-! ## RAG engine (src/src/rag_engine.py) -/

/-- The dict returned by a `qa_chain({"question": ...})` call: generated
answer plus the retrieved source chunks. -/
structure ChainRes where
  answer : Str
  source_documents : List Document
deriving DecidableEq

/-- The dict returned by `RAGEngine.query` and friends. -/
structure QueryResult where
  answer : Str
  source_documents : List Document
  success : Bool
deriving DecidableEq

/-- The phrase checked on the lowercased answer at line 138 of
src/src/rag_engine.py (the apostrophe is written via its code point). -/
def noInfoPhrase : Str := ("don").data ++ [Char.ofNat 39] ++ ("t have that information").data

/-- The text prepended to a caught exception message in the
`except` blocks of `_multi_strategy_query` and `query_with_filter`. -/
def errorHead : Str := ("Error processing query: ").data

/-- The `expansions` dict of `RAGEngine._expand_financial_query`
(lines 179-183), in its insertion order. -/
def expansions : List (Str × Str) :=
  [ (("revenue").data, ("revenue total sales net sales turnover").data),
    (("profit").data, ("profit net income earnings EBIT EBITDA net profit").data),
    (("growth").data, ("growth increase change trend performance").data) ]

/-- `RAGEngine._expand_financial_query`: append the alternatives of the first
term (in dict order) occurring in the lowercased question; the loop breaks on
the first hit, so `List.find?` models it exactly. -/
def expand_financial_query (question : Str) : Str :=
  match expansions.find? (fun p => containsSub p.1 (lowerStr question)) with
  | some p => question ++ (" (including ").data ++ p.2 ++ (")").data
  | none => question

/-- Conversion of one chain call outcome into the returned dict: a normal
return becomes a success result, a raised exception is caught by the
`except Exception` block and becomes a failure result with the message
embedded in the answer. -/
def chainToQueryResult (out : Except Str ChainRes) : QueryResult :=
  match out with
  | .ok r => { answer := r.answer, source_documents := r.source_documents, success := true }
  | .error e => { answer := errorHead ++ e, source_documents := [], success := false }

/-- `RAGEngine._multi_strategy_query` (lines 121-167).  The chain (retrieval
plus LLM) is the parameter `chain`; a raised exception is an `Except.error`.
The second component of the result is the instrumentation needed to speak
about retrieval attempts: the list of questions passed to `chain`, in call
order (the Python has no such value; everything else is translated 1:1). -/
def multi_strategy_query (chain : Str → Except Str ChainRes) (question : Str) :
    QueryResult × List Str :=
  match chain question with
  | .error e => ({ answer := errorHead ++ e, source_documents := [], success := false }, [question])
  | .ok result =>
    if containsSub noInfoPhrase (lowerStr result.answer) = false ∨
        result.source_documents.length > 0 then
      ({ answer := result.answer, source_documents := result.source_documents, success := true },
        [question])
    else
      let expanded := expand_financial_query question
      if expanded ≠ question then
        (chainToQueryResult (chain expanded), [question, expanded])
      else
        ({ answer := result.answer, source_documents := result.source_documents, success := true },
          [question])

/-- `RAGEngine.query` (lines 103-119): returns the `_multi_strategy_query`
result. -/
def query (chain : Str → Except Str ChainRes) (question : Str) : QueryResult :=
  (multi_strategy_query chain question).1

/-- The retriever's `search_kwargs` (initially `{"k": 15}`; with a filter,
`{"k": 15, "filter": filter_dict}`). -/
structure SearchKwargs where
  k : Nat
  filter : Option (List (Str × Str))
deriving DecidableEq

/-- Python truthiness of an optional string argument (`if company:`):
`None` and the empty string are falsy. -/
def truthyOpt (s : Option Str) : Bool :=
  match s with
  | some c => !c.isEmpty
  | none => false

/-- `RAGEngine.query_with_filter` (lines 193-235), with the retriever state
threaded explicitly: `kwargs0` is `retriever.search_kwargs` before the call,
`chain` reads the current kwargs.  Returns the result dict, the kwargs after
the call (the `finally` block restores the saved kwargs whenever a filter was
installed), and the number of assignments made to `search_kwargs`. -/
def query_with_filter (chain : SearchKwargs → Str → Except Str ChainRes)
    (kwargs0 : SearchKwargs) (question : Str) (company year : Option Str) :
    QueryResult × SearchKwargs × Nat :=
  let filter_dict : List (Str × Str) :=
    (if truthyOpt company then [(("company").data, company.getD [])] else []) ++
    (if truthyOpt year then [(("year").data, year.getD [])] else [])
  let applied := if filter_dict ≠ [] then ({ k := 15, filter := some filter_dict }, 1)
    else (kwargs0, 0)
  let result := chainToQueryResult (chain applied.1 question)
  let final := if filter_dict ≠ [] then (kwargs0, applied.2 + 1) else (applied.1, applied.2)
  (result, final.1, final.2)

/-! ## Source attribution (src/src/rag_engine.py, lines 266-303) -/

/-- The grouping information kept per key in `sources_by_company`. -/
structure GroupInfo where
  company : Str
  year : Str
  source : Str
  count : Nat
deriving DecidableEq

/-- The dict key `f"{company} - {year}"` built at line 288. -/
def keyOf (d : Document) : Str :=
  d.metadata.company ++ (" - ").data ++ d.metadata.year

/-- One loop iteration of `format_sources`: insert the key with a fresh entry
if absent (Python dicts append new keys at the end, preserving insertion
order), then increment its count. -/
def bumpGroup (d : Document) : List (Str × GroupInfo) → List (Str × GroupInfo)
  | [] => [(keyOf d, { company := d.metadata.company, year := d.metadata.year,
                       source := d.metadata.source_file, count := 1 })]
  | (k, info) :: rest =>
    if k = keyOf d then (k, { info with count := info.count + 1 }) :: rest
    else (k, info) :: bumpGroup d rest

/-- The `sources_by_company` dict after the grouping loop, as an association
list in insertion order. -/
def sources_by_company (docs : List Document) : List (Str × GroupInfo) :=
  docs.foldl (fun gs d => bumpGroup d gs) []

/-- Decimal rendering of a count, as Python `str(n)` / f-string field. -/
def natStr (n : Nat) : Str := (Nat.repr n).data

/-- The rendering loop of `format_sources` (`enumerate(..., 1)`): three lines
per group, the third carrying the chunk count. -/
def renderGroups : Nat → List (Str × GroupInfo) → Str
  | _, [] => []
  | i, (_, info) :: rest =>
    natStr i ++ (". ").data ++ info.company ++ (" Annual Report ").data ++ info.year ++
      ("\n").data ++
    ("   File: ").data ++ info.source ++ ("\n").data ++
    ("   Chunks referenced: ").data ++ natStr info.count ++ ("\n").data ++
    renderGroups (i + 1) rest

/-- `RAGEngine.format_sources`. -/
def format_sources (source_documents : List Document) : Str :=
  if source_documents = [] then ("No sources available").data
  else ("\n\nSources:\n").data ++ List.replicate 60 '=' ++ ("\n").data ++
    renderGroups 1 (sources_by_company source_documents)

/-- First-occurrence deduplication: processes the elements left to right and
appends each not-yet-seen element.  Used both as the spec-side reading of
"first-seen order" grouping and as the embedding of Python `list(set(xs))`
(whose iteration order CPython leaves unspecified under hash randomisation;
only membership and duplicate-freeness of the result are relied upon). -/
def insertIfNew {α : Type} [DecidableEq α] (acc : List α) (x : α) : List α :=
  if x ∈ acc then acc else acc ++ [x]

def firstSeenDedup {α : Type} [DecidableEq α] (xs : List α) : List α :=
  xs.foldl insertIfNew []

/-- Spec-side grouping of `format_sources`: one entry per distinct dict key in
first-seen order, paired with the number of chunks carrying that key. -/
def keyGroups (docs : List Document) : List (Str × Nat) :=
  (firstSeenDedup (docs.map keyOf)).map
    (fun k => (k, (docs.filter (fun d => keyOf d = k)).length))

/-- Grouping by the (company, year) pair, written from the claim: one entry
per distinct pair in first-seen order, with the number of chunks carrying
that pair.  Compared against the dict-key grouping of the source. -/
def pairGroups (docs : List Document) : List ((Str × Str) × Nat) :=
  (firstSeenDedup (docs.map (fun d => (d.metadata.company, d.metadata.year)))).map
    (fun p => (p, (docs.filter (fun d => (d.metadata.company, d.metadata.year) = p)).length))

/-! ## Query intent analysis (src/src/rag_engine.py, lines 305-359) -/

/-- The `analysis` dict returned by `analyze_query_intent`. -/
structure QueryAnalysis where
  companies : List Str
  years : List Str
  metrics : List Str
  query_type : Str
deriving DecidableEq

/-- The fixed company list at line 329. -/
def companiesList : List Str := [("bmw").data, ("tesla").data, ("ford").data]

/-- The `metrics` keyword table at lines 338-343, in insertion order. -/
def metricsTable : List (Str × List Str) :=
  [ (("revenue").data, [("revenue").data, ("sales").data, ("turnover").data]),
    (("profit").data,
      [("profit").data, ("earnings").data, ("net income").data, ("ebitda").data, ("ebit").data]),
    (("growth").data, [("growth").data, ("increase").data, ("trend").data]),
    (("performance").data, [("performance").data, ("results").data]) ]

/-- Whether a 4-character string matches the regex `20[2-4][0-9]`. -/
def isYear2049 (y : Str) : Bool :=
  match y with
  | [c1, c2, c3, c4] =>
    (c1 == '2') && (c2 == '0') && (c3 == '2' || c3 == '3' || c3 == '4') && c4.isDigit
  | _ => false

/-- `re.findall(r'20[2-4][0-9]', question)`: left-to-right non-overlapping
scan; after a match the scan resumes past it, otherwise it advances one
character. -/
def findYears : Str → List Str
  | c1 :: c2 :: c3 :: c4 :: rest =>
    if isYear2049 [c1, c2, c3, c4] then [c1, c2, c3, c4] :: findYears rest
    else findYears (c2 :: c3 :: c4 :: rest)
  | _ => []

/-- `RAGEngine.analyze_query_intent`. -/
def analyze_query_intent (question : Str) : QueryAnalysis :=
  let question_lower := lowerStr question
  let companies :=
    (companiesList.filter (fun c => containsSub c question_lower)).map upperStr
  let years := firstSeenDedup (findYears question)
  let metrics :=
    (metricsTable.filter (fun m => m.2.any (fun kw => containsSub kw question_lower))).map
      Prod.fst
  let query_type :=
    if containsSub ("compare").data question_lower ∨
        containsSub ("between").data question_lower ∨
        containsSub ("versus").data question_lower then ("comparison").data
    else if containsSub ("trend").data question_lower ∨
        containsSub ("over").data question_lower ∨
        containsSub ("growth").data question_lower then ("trend").data
    else if containsSub ("summary").data question_lower ∨
        containsSub ("overview").data question_lower then ("summary").data
    else if companies.length = 1 ∧ years.length = 1 then ("specific").data
    else ("general").data
  { companies := companies, years := years, metrics := metrics, query_type := query_type }

/-- Count held by a key in the grouping association list (0 when absent). -/
def countOfKey (k : Str) (gs : List (Str × GroupInfo)) : Nat :=
  match gs.find? (fun g => decide (g.1 = k)) with
  | some g => g.2.count
  | none => 0

/-! ## Theorems -/

theorem isYear20dd_shape {y : Str} (h : isYear20dd y = true) :
    ∃ c1 c2 c3 c4, y = [c1, c2, c3, c4] := by
  rcases y with _ | ⟨a, _ | ⟨b, _ | ⟨c, _ | ⟨d, _ | ⟨e, t⟩⟩⟩⟩⟩ <;>
    simp [isYear20dd] at h
  exact ⟨_, _, _, _, rfl⟩

theorem findFirst20dd_sound : ∀ (l y : Str), findFirst20dd l = some y →
    ∃ a b, l = a ++ y ++ b ∧ isYear20dd y = true ∧
      ∀ a2 y2 b2, l = a2 ++ y2 ++ b2 → isYear20dd y2 = true → a.length ≤ a2.length := by
  intro l
  induction l using findFirst20dd.induct with
  | case1 c1 c2 c3 c4 rest h =>
    intro y hy
    simp [findFirst20dd, h] at hy
    refine ⟨[], rest, by simp [hy.symm], hy ▸ h, fun a2 y2 b2 _ _ => by simp⟩
  | case2 c1 c2 c3 c4 rest h ih =>
    intro y hy
    rw [findFirst20dd, if_neg h] at hy
    obtain ⟨a, b, hl, hy2, hmin⟩ := ih y hy
    refine ⟨c1 :: a, b, by simp [hl], hy2, ?_⟩
    intro a2 y2 b2 heq hpat
    rcases a2 with _ | ⟨e, a2'⟩
    · obtain ⟨d1, d2, d3, d4, hshape⟩ := isYear20dd_shape hpat
      subst hshape
      simp at heq
      obtain ⟨h1, h2, h3, h4, _⟩ := heq
      exact absurd (h1 ▸ h2 ▸ h3 ▸ h4 ▸ hpat) h
    · simp at heq
      have := hmin a2' y2 b2 (by simpa using heq.2) hpat
      simpa using Nat.succ_le_succ this
  | case3 l h1 =>
    intro y hy
    simp [findFirst20dd] at hy

theorem findFirst20dd_none : ∀ (l : Str), findFirst20dd l = none →
    ∀ a y b, l = a ++ y ++ b → isYear20dd y = true → False := by
  intro l
  induction l using findFirst20dd.induct with
  | case1 c1 c2 c3 c4 rest h =>
    intro hn
    simp [findFirst20dd, h] at hn
  | case2 c1 c2 c3 c4 rest h ih =>
    intro hn a y b heq hpat
    rw [findFirst20dd, if_neg h] at hn
    rcases a with _ | ⟨e, a'⟩
    · obtain ⟨d1, d2, d3, d4, hshape⟩ := isYear20dd_shape hpat
      subst hshape
      simp at heq
      obtain ⟨h1, h2, h3, h4, _⟩ := heq
      exact absurd (h1 ▸ h2 ▸ h3 ▸ h4 ▸ hpat) h
    · simp at heq
      exact ih hn a' y b (by simpa using heq.2) hpat
  | case3 l h1 =>
    intro hn a y b heq hpat
    obtain ⟨d1, d2, d3, d4, hshape⟩ := isYear20dd_shape hpat
    subst hshape
    rcases l with _ | ⟨x1, _ | ⟨x2, _ | ⟨x3, _ | ⟨x4, t⟩⟩⟩⟩
    · simp at heq
    · rcases a with _ | ⟨e, a'⟩ <;> simp at heq
    · rcases a with _ | ⟨e1, _ | ⟨e2, a'⟩⟩ <;> simp at heq
    · rcases a with _ | ⟨e1, _ | ⟨e2, _ | ⟨e3, a'⟩⟩⟩ <;> simp at heq
    · exact absurd rfl (h1 x1 x2 x3 x4 t)

/-- **C9**: for every filename, year extraction returns a leftmost 4-character
substring matching `20` followed by two digits (whenever any such substring
exists), and returns `"Unknown"` when none exists; in particular
`"BMW_Report_2022_final.pdf"` yields `"2022"` and `"report.pdf"` yields
`"Unknown"`. -/
theorem c9_year_extraction (fn : Str) :
    (∀ a y b, fn = a ++ y ++ b → isYear20dd y = true →
      ∃ a0 b0, fn = a0 ++ extract_year_from_filename fn ++ b0 ∧
        isYear20dd (extract_year_from_filename fn) = true ∧ a0.length ≤ a.length) ∧
    ((∀ a y b, fn = a ++ y ++ b → isYear20dd y = true → False) →
      extract_year_from_filename fn = ("Unknown").data) ∧
    extract_year_from_filename ("BMW_Report_2022_final.pdf").data = ("2022").data ∧
    extract_year_from_filename ("report.pdf").data = ("Unknown").data := by
  refine ⟨?_, ?_, by decide, by decide⟩
  · intro a y b heq hpat
    match hf : findFirst20dd fn with
    | some y0 =>
      obtain ⟨a0, b0, hl, hy0, hmin⟩ := findFirst20dd_sound fn y0 hf
      have hex : extract_year_from_filename fn = y0 := by
        simp [extract_year_from_filename, hf]
      exact ⟨a0, b0, hex ▸ hl, hex ▸ hy0, hmin a y b heq hpat⟩
    | none => exact absurd hpat (fun _ => findFirst20dd_none fn hf a y b heq hpat)
  · intro hno
    match hf : findFirst20dd fn with
    | some y0 =>
      obtain ⟨a0, b0, hl, hy0, _⟩ := findFirst20dd_sound fn y0 hf
      exact absurd hy0 (fun h => hno a0 y0 b0 hl h)
    | none => simp [extract_year_from_filename, hf]

/-- Witness for C9 at the filename `"BMW_Report_2022_final.pdf"`. -/
theorem c9_witness :
    ∃ a0 b0, ("BMW_Report_2022_final.pdf").data =
        a0 ++ extract_year_from_filename ("BMW_Report_2022_final.pdf").data ++ b0 ∧
      isYear20dd (extract_year_from_filename ("BMW_Report_2022_final.pdf").data) = true ∧
      a0.length ≤ ("BMW_Report_").data.length :=
  (c9_year_extraction ("BMW_Report_2022_final.pdf").data).1
    ("BMW_Report_").data ("2022").data ("_final.pdf").data (by decide) (by decide)

/-- **C3**: when the held vector store is still `None` (neither create nor load
has completed), both `search` and `search_with_score` raise an error whose
message states the store is not initialized, and neither returns a (possibly
empty) result list. -/
theorem c3_not_initialized (vectorstore : Option Chroma) (h : vectorstore = none)
    (query_text : Str) (k : Nat) (filter_dict : Option (List (Str × Str))) :
    (∃ m, search vectorstore query_text k filter_dict = Except.error m ∧
      containsSub ("not initialized").data m = true) ∧
    (∃ m, search_with_score vectorstore query_text k = Except.error m ∧
      containsSub ("not initialized").data m = true) ∧
    (∀ res, search vectorstore query_text k filter_dict ≠ Except.ok res) ∧
    (∀ res, search_with_score vectorstore query_text k ≠ Except.ok res) := by
  subst h
  refine ⟨⟨_, rfl, by decide⟩, ⟨_, rfl, by decide⟩, ?_, ?_⟩ <;>
    intro res hres <;> simp [search, search_with_score] at hres

theorem c3_witness :
    (∃ m, search none ("BMW revenue 2023").data 3 none = Except.error m ∧
      containsSub ("not initialized").data m = true) ∧
    (∃ m, search_with_score none ("BMW revenue 2023").data 3 = Except.error m ∧
      containsSub ("not initialized").data m = true) ∧
    (∀ res, search none ("BMW revenue 2023").data 3 none ≠ Except.ok res) ∧
    (∀ res, search_with_score none ("BMW revenue 2023").data 3 ≠ Except.ok res) :=
  c3_not_initialized none rfl ("BMW revenue 2023").data 3 none

theorem mem_chunk_foldl (split : Str → List Str) :
    ∀ (docs : List Document) (acc : List Document) (c : Document),
      (c ∈ docs.foldl (fun cs d => cs ++ splitDocuments split d) acc ↔
        c ∈ acc ∨ ∃ d, d ∈ docs ∧ c ∈ splitDocuments split d) := by
  intro docs
  induction docs with
  | nil => simp
  | cons d ds ih =>
    intro acc c
    simp only [List.foldl_cons, ih, List.mem_append, List.mem_cons]
    constructor
    · rintro (⟨hc | hc⟩ | ⟨d2, hd2, hc⟩)
      · exact Or.inl hc
      · exact Or.inr ⟨d, Or.inl rfl, hc⟩
      · exact Or.inr ⟨d2, Or.inr hd2, hc⟩
    · rintro (hc | ⟨d2, rfl | hd2, hc⟩)
      · exact Or.inl (Or.inl hc)
      · exact Or.inl (Or.inr hc)
      · exact Or.inr ⟨d2, hd2, hc⟩

/-- **C4**: every chunk produced by `chunk_documents` carries metadata exactly
equal to that of the parent document it was split from (company, source_file,
year and page all unchanged), for every splitting function and document
list. -/
theorem c4_chunk_metadata (split : Str → List Str) (documents : List Document) :
    (∀ c, c ∈ chunk_documents split documents →
      ∃ d, d ∈ documents ∧ c.metadata = d.metadata ∧
        c.metadata.company = d.metadata.company ∧
        c.metadata.source_file = d.metadata.source_file ∧
        c.metadata.year = d.metadata.year ∧
        c.metadata.page = d.metadata.page ∧
        c.page_content ∈ split d.page_content) ∧
    (∀ d, d ∈ documents → ∀ c, c ∈ splitDocuments split d → c.metadata = d.metadata) := by
  constructor
  · intro c hc
    rw [chunk_documents, mem_chunk_foldl] at hc
    rcases hc with hc | ⟨d, hd, hc⟩
    · simp at hc
    · simp only [splitDocuments, List.mem_map] at hc
      obtain ⟨t, ht, rfl⟩ := hc
      exact ⟨d, hd, rfl, rfl, rfl, rfl, rfl, ht⟩
  · intro d _ c hc
    simp only [splitDocuments, List.mem_map] at hc
    obtain ⟨t, _, rfl⟩ := hc
    rfl

theorem c4_witness :
    ∃ d, d ∈ [Document.mk ("hello world").data (Metadata.mk ("BMW").data ("b.pdf").data ("2022").data 1)] ∧
      (Document.mk ("hel").data (Metadata.mk ("BMW").data ("b.pdf").data ("2022").data 1)).metadata = d.metadata ∧
      (Metadata.mk ("BMW").data ("b.pdf").data ("2022").data 1).company = d.metadata.company ∧
      (Metadata.mk ("BMW").data ("b.pdf").data ("2022").data 1).source_file = d.metadata.source_file ∧
      (Metadata.mk ("BMW").data ("b.pdf").data ("2022").data 1).year = d.metadata.year ∧
      (Metadata.mk ("BMW").data ("b.pdf").data ("2022").data 1).page = d.metadata.page ∧
      ("hel").data ∈ (fun s : Str => [s.take 3, s.drop 8]) d.page_content :=
  (c4_chunk_metadata (fun s : Str => [s.take 3, s.drop 8])
      [Document.mk ("hello world").data (Metadata.mk ("BMW").data ("b.pdf").data ("2022").data 1)]).1
    (Document.mk ("hel").data (Metadata.mk ("BMW").data ("b.pdf").data ("2022").data 1))
    (by decide)

theorem foldl_insertNew_mem {α : Type} [DecidableEq α] :
    ∀ (xs acc : List α) (y : α),
      (y ∈ xs.foldl insertIfNew acc ↔ y ∈ acc ∨ y ∈ xs) := by
  intro xs
  induction xs with
  | nil => simp
  | cons x xs ih =>
    intro acc y
    simp only [List.foldl_cons, ih, List.mem_cons, insertIfNew]
    by_cases hx : x ∈ acc
    · simp only [if_pos hx]
      constructor
      · rintro (h | h)
        · exact Or.inl h
        · exact Or.inr (Or.inr h)
      · rintro (h | rfl | h)
        · exact Or.inl h
        · exact Or.inl hx
        · exact Or.inr h
    · simp only [if_neg hx, List.mem_append, List.mem_singleton]
      tauto

theorem foldl_insertNew_nodup {α : Type} [DecidableEq α] :
    ∀ (xs acc : List α), acc.Nodup → (xs.foldl insertIfNew acc).Nodup := by
  intro xs
  induction xs with
  | nil => exact fun _ h => h
  | cons x xs ih =>
    intro acc hacc
    simp only [List.foldl_cons]
    by_cases hx : x ∈ acc
    · simpa [insertIfNew, if_pos hx] using ih acc hacc
    · refine ih _ ?_
      rw [insertIfNew, if_neg hx]
      simp [List.nodup_append, hacc, hx]

theorem firstSeenDedup_mem {α : Type} [DecidableEq α] (xs : List α) (y : α) :
    y ∈ firstSeenDedup xs ↔ y ∈ xs := by
  simp [firstSeenDedup, foldl_insertNew_mem]

theorem firstSeenDedup_nodup {α : Type} [DecidableEq α] (xs : List α) :
    (firstSeenDedup xs).Nodup :=
  foldl_insertNew_nodup xs [] List.nodup_nil

theorem findYears_sound : ∀ (l y : Str), y ∈ findYears l →
    ∃ a b, l = a ++ y ++ b ∧ isYear2049 y = true := by
  intro l
  induction l using findYears.induct with
  | case1 c1 c2 c3 c4 rest h ih =>
    intro y hy
    rw [findYears, if_pos h] at hy
    rcases List.mem_cons.mp hy with rfl | hy2
    · exact ⟨[], rest, by simp, h⟩
    · obtain ⟨a, b, hl, hpat⟩ := ih y hy2
      exact ⟨c1 :: c2 :: c3 :: c4 :: a, b, by simp [hl], hpat⟩
  | case2 c1 c2 c3 c4 rest h ih =>
    intro y hy
    rw [findYears, if_neg h] at hy
    obtain ⟨a, b, hl, hpat⟩ := ih y hy
    exact ⟨c1 :: a, b, by simp [hl], hpat⟩
  | case3 l h1 =>
    intro y hy
    simp [findYears] at hy

/-- **C5**: `analyze_query_intent` is a pure function of the question string:
its companies are exactly the fixed list `[BMW, TESLA, FORD]` filtered by
case-insensitive substring match; every listed year is a 4-digit substring of
the question matching `20[2-4][0-9]` (range [2020,2049]); metrics are exactly
the table entries one of whose keywords occurs in the lowercased question; the
`query_type` follows the priority comparison > trend > summary > specific
(exactly one company and one year) > general; and the spec example
`"Compare BMW and Tesla revenue in 2023"` yields companies `[BMW, TESLA]`,
years `["2023"]`, metrics `["revenue"]`, query_type `"comparison"`. -/
theorem c5_analyze_query_intent (q : Str) :
    ((analyze_query_intent q).companies =
      ([("BMW").data, ("TESLA").data, ("FORD").data]).filter
        (fun c => containsSub (lowerStr c) (lowerStr q))) ∧
    (∀ y, y ∈ (analyze_query_intent q).years →
      (∃ a b, q = a ++ y ++ b) ∧ isYear2049 y = true) ∧
    (∀ m, m ∈ (analyze_query_intent q).metrics ↔
      ∃ kws, (m, kws) ∈ metricsTable ∧ ∃ kw, kw ∈ kws ∧
        containsSub kw (lowerStr q) = true) ∧
    (((containsSub ("compare").data (lowerStr q) = true ∨
        containsSub ("between").data (lowerStr q) = true ∨
        containsSub ("versus").data (lowerStr q) = true) →
      (analyze_query_intent q).query_type = ("comparison").data) ∧
    (¬(containsSub ("compare").data (lowerStr q) = true ∨
        containsSub ("between").data (lowerStr q) = true ∨
        containsSub ("versus").data (lowerStr q) = true) →
      (containsSub ("trend").data (lowerStr q) = true ∨
        containsSub ("over").data (lowerStr q) = true ∨
        containsSub ("growth").data (lowerStr q) = true) →
      (analyze_query_intent q).query_type = ("trend").data) ∧
    (¬(containsSub ("compare").data (lowerStr q) = true ∨
        containsSub ("between").data (lowerStr q) = true ∨
        containsSub ("versus").data (lowerStr q) = true) →
      ¬(containsSub ("trend").data (lowerStr q) = true ∨
        containsSub ("over").data (lowerStr q) = true ∨
        containsSub ("growth").data (lowerStr q) = true) →
      (containsSub ("summary").data (lowerStr q) = true ∨
        containsSub ("overview").data (lowerStr q) = true) →
      (analyze_query_intent q).query_type = ("summary").data) ∧
    (¬(containsSub ("compare").data (lowerStr q) = true ∨
        containsSub ("between").data (lowerStr q) = true ∨
        containsSub ("versus").data (lowerStr q) = true) →
      ¬(containsSub ("trend").data (lowerStr q) = true ∨
        containsSub ("over").data (lowerStr q) = true ∨
        containsSub ("growth").data (lowerStr q) = true) →
      ¬(containsSub ("summary").data (lowerStr q) = true ∨
        containsSub ("overview").data (lowerStr q) = true) →
      ((analyze_query_intent q).companies.length = 1 ∧
        (analyze_query_intent q).years.length = 1) →
      (analyze_query_intent q).query_type = ("specific").data) ∧
    (¬(containsSub ("compare").data (lowerStr q) = true ∨
        containsSub ("between").data (lowerStr q) = true ∨
        containsSub ("versus").data (lowerStr q) = true) →
      ¬(containsSub ("trend").data (lowerStr q) = true ∨
        containsSub ("over").data (lowerStr q) = true ∨
        containsSub ("growth").data (lowerStr q) = true) →
      ¬(containsSub ("summary").data (lowerStr q) = true ∨
        containsSub ("overview").data (lowerStr q) = true) →
      ¬((analyze_query_intent q).companies.length = 1 ∧
        (analyze_query_intent q).years.length = 1) →
      (analyze_query_intent q).query_type = ("general").data)) ∧
    analyze_query_intent ("Compare BMW and Tesla revenue in 2023").data =
      { companies := [("BMW").data, ("TESLA").data],
        years := [("2023").data],
        metrics := [("revenue").data],
        query_type := ("comparison").data } := by
  refine ⟨?_, ?_, ?_, ⟨?_, ?_, ?_, ?_, ?_⟩, by decide⟩
  · have e1 : lowerStr ("BMW").data = ("bmw").data := by decide
    have e2 : lowerStr ("TESLA").data = ("tesla").data := by decide
    have e3 : lowerStr ("FORD").data = ("ford").data := by decide
    have u1 : upperStr ("bmw").data = ("BMW").data := by decide
    have u2 : upperStr ("tesla").data = ("TESLA").data := by decide
    have u3 : upperStr ("ford").data = ("FORD").data := by decide
    rcases h1 : containsSub ("bmw").data (lowerStr q) <;>
      rcases h2 : containsSub ("tesla").data (lowerStr q) <;>
      rcases h3 : containsSub ("ford").data (lowerStr q) <;>
      simp [analyze_query_intent, companiesList, List.filter, h1, h2, h3, e1, e2, e3,
        u1, u2, u3]
  · intro y hy
    have : y ∈ findYears q := (firstSeenDedup_mem _ _).mp hy
    obtain ⟨a, b, hl, hpat⟩ := findYears_sound q y this
    exact ⟨⟨a, b, hl⟩, hpat⟩
  · intro m
    show m ∈ (metricsTable.filter _).map Prod.fst ↔ _
    simp only [List.mem_map, List.mem_filter, List.any_eq_true]
    constructor
    · rintro ⟨⟨m2, kws⟩, ⟨hmem, kw, hkw, hc⟩, rfl⟩
      exact ⟨kws, hmem, kw, hkw, hc⟩
    · rintro ⟨kws, hmem, kw, hkw, hc⟩
      exact ⟨(m, kws), ⟨hmem, kw, hkw, hc⟩, rfl⟩
  · intro h
    simp only [analyze_query_intent]
    rw [if_pos h]
  · intro h1 h2
    simp only [analyze_query_intent]
    rw [if_neg h1, if_pos h2]
  · intro h1 h2 h3
    simp only [analyze_query_intent]
    rw [if_neg h1, if_neg h2, if_pos h3]
  · intro h1 h2 h3 h4
    simp only [analyze_query_intent] at h4 ⊢
    rw [if_neg h1, if_neg h2, if_neg h3, if_pos h4]
  · intro h1 h2 h3 h4
    simp only [analyze_query_intent] at h4 ⊢
    rw [if_neg h1, if_neg h2, if_neg h3, if_neg h4]

/-- Witness for C5 at the spec example question and the year `"2023"`. -/
theorem c5_witness :
    (∃ a b, ("Compare BMW and Tesla revenue in 2023").data =
      a ++ ("2023").data ++ b) ∧ isYear2049 ("2023").data = true :=
  (c5_analyze_query_intent ("Compare BMW and Tesla revenue in 2023").data).2.1
    ("2023").data (by decide)

/-- **C10**: the companies list of `analyze_query_intent` is always a
subsequence of the fixed order `[BMW, TESLA, FORD]` (uppercased, each at most
once, independent of the order of appearance in the question), and the years
list never contains duplicates. -/
theorem c10_companies_order (q : Str) :
    (analyze_query_intent q).companies.Sublist
      [("BMW").data, ("TESLA").data, ("FORD").data] ∧
    (analyze_query_intent q).companies.Nodup ∧
    (analyze_query_intent q).years.Nodup := by
  have hcomp : (analyze_query_intent q).companies =
      (companiesList.filter
        (fun c => containsSub c (lowerStr q))).map upperStr := rfl
  have hsub0 : (companiesList.filter
      (fun c => containsSub c (lowerStr q))).Sublist companiesList :=
    List.filter_sublist _
  have hsub1 := hsub0.map upperStr
  have hmap : companiesList.map upperStr =
      [("BMW").data, ("TESLA").data, ("FORD").data] := by decide
  rw [hmap] at hsub1
  rw [hcomp]
  refine ⟨hsub1, ?_, ?_⟩
  · exact (by decide :
      ([("BMW").data, ("TESLA").data, ("FORD").data] : List Str).Nodup).sublist hsub1
  · exact firstSeenDedup_nodup _

theorem append_tail_ne (q x : Str) (hx : x ≠ []) : q ++ x ≠ q := by
  intro h
  have := congrArg List.length h
  simp [List.length_append] at this
  exact hx this

/-- **C1**: at most two retrieval attempts are ever made; when the step-1
answer contains the "no information" phrase, the step-1 result has zero source
chunks, and a term of `expansions` matches the lowercased question (the
`find?` hypothesis selects the first match in the fixed revenue > profit >
growth order), the chain is re-run exactly once, on the question with that
term's synonym expansion appended, and that second outcome is returned
unconditionally; when the step-1 answer lacks the phrase or has at least one
source chunk, the step-1 result is returned unchanged, after a single
attempt. -/
theorem c1_query_expansion (chain : Str → Except Str ChainRes) (q : Str) :
    ((multi_strategy_query chain q).2.length ≤ 2) ∧
    (∀ r1 t alts, chain q = Except.ok r1 →
      containsSub noInfoPhrase (lowerStr r1.answer) = true →
      r1.source_documents = [] →
      expansions.find? (fun p => containsSub p.1 (lowerStr q)) = some (t, alts) →
      (multi_strategy_query chain q).2 =
        [q, q ++ (" (including ").data ++ alts ++ (")").data] ∧
      (multi_strategy_query chain q).1 =
        chainToQueryResult (chain (q ++ (" (including ").data ++ alts ++ (")").data))) ∧
    (∀ r1, chain q = Except.ok r1 →
      (containsSub noInfoPhrase (lowerStr r1.answer) = false ∨
        r1.source_documents ≠ []) →
      (multi_strategy_query chain q).1 =
        { answer := r1.answer, source_documents := r1.source_documents, success := true } ∧
      (multi_strategy_query chain q).2 = [q]) := by
  refine ⟨?_, ?_, ?_⟩
  · rcases hc : chain q with e | r <;> simp only [multi_strategy_query, hc] <;>
      try simp
    split_ifs <;> simp
  · intro r1 t alts hok hphrase hdocs hfind
    have hexp : expand_financial_query q =
        q ++ (" (including ").data ++ alts ++ (")").data := by
      simp [expand_financial_query, hfind]
    have hne : q ++ (" (including ").data ++ alts ++ (")").data ≠ q := by
      rw [List.append_assoc, List.append_assoc]
      exact append_tail_ne q _ (by simp)
    have hcond : ¬(containsSub noInfoPhrase (lowerStr r1.answer) = false ∨
        r1.source_documents.length > 0) := by
      rintro (h | h)
      · rw [hphrase] at h; simp at h
      · rw [hdocs] at h; simp at h
    simp only [multi_strategy_query, hok, if_neg hcond, hexp, ne_eq, if_pos hne]
    simp
  · intro r1 hok hweak
    have hcond : containsSub noInfoPhrase (lowerStr r1.answer) = false ∨
        r1.source_documents.length > 0 := by
      rcases hweak with h | h
      · exact Or.inl h
      · exact Or.inr (by
          cases hd : r1.source_documents with
          | nil => exact absurd hd h
          | cons a l => simp [hd])
    simp only [multi_strategy_query, hok, if_pos hcond]
    simp

/-- Witness for C1: a chain that answers the "no information" phrase with no
sources on the question containing "profit" is re-queried exactly once with
the profit synonyms appended. -/
theorem c1_witness :
    (multi_strategy_query
        (fun s => if s = ("What was the profit?").data
          then Except.ok { answer := noInfoPhrase, source_documents := [] }
          else Except.ok { answer := ("The profit was 9bn EUR").data,
                           source_documents := ([] : List Document) })
        ("What was the profit?").data).2 =
      [("What was the profit?").data,
        ("What was the profit?").data ++ (" (including ").data ++
          ("profit net income earnings EBIT EBITDA net profit").data ++ (")").data] ∧
    (multi_strategy_query
        (fun s => if s = ("What was the profit?").data
          then Except.ok { answer := noInfoPhrase, source_documents := [] }
          else Except.ok { answer := ("The profit was 9bn EUR").data,
                           source_documents := ([] : List Document) })
        ("What was the profit?").data).1 =
      chainToQueryResult
        ((fun s => if s = ("What was the profit?").data
          then Except.ok { answer := noInfoPhrase, source_documents := [] }
          else Except.ok { answer := ("The profit was 9bn EUR").data,
                           source_documents := ([] : List Document) })
          (("What was the profit?").data ++ (" (including ").data ++
            ("profit net income earnings EBIT EBITDA net profit").data ++ (")").data)) :=
  (c1_query_expansion _ _).2.1
    { answer := noInfoPhrase, source_documents := [] }
    ("profit").data ("profit net income earnings EBIT EBITDA net profit").data
    rfl (by decide) rfl (by decide)

/-- **C7**: `query` is total and returns success exactly when every chain
call made returned normally; whenever it reports failure the result has an
empty source list and its answer embeds the raised error message behind
"Error processing query: ". -/
theorem c7_query_no_exception (chain : Str → Except Str ChainRes) (q : Str) :
    ((query chain q).success = true ↔
      ∀ x ∈ (multi_strategy_query chain q).2, (chain x).isOk = true) ∧
    ((query chain q).success = false →
      (query chain q).source_documents = [] ∧
      ∃ x e, x ∈ (multi_strategy_query chain q).2 ∧ chain x = Except.error e ∧
        (query chain q).answer = errorHead ++ e) := by
  rcases hc : chain q with e | r
  · constructor
    · simp [query, multi_strategy_query, hc, Except.isOk, Except.toBool]
    · intro _
      exact ⟨by simp [query, multi_strategy_query, hc], q, e,
        by simp [multi_strategy_query, hc], hc,
        by simp [query, multi_strategy_query, hc]⟩
  · by_cases hcond : containsSub noInfoPhrase (lowerStr r.answer) = false ∨
        r.source_documents.length > 0
    · constructor
      · simp only [query, multi_strategy_query, hc, if_pos hcond]
        simp [hc, Except.isOk, Except.toBool]
      · simp only [query, multi_strategy_query, hc, if_pos hcond]
        intro h
        simp at h
    · by_cases hne : expand_financial_query q ≠ q
      · rcases hc2 : chain (expand_financial_query q) with e2 | r2
        · constructor
          · simp only [query, multi_strategy_query, hc, if_neg hcond, if_pos hne,
              chainToQueryResult, hc2]
            constructor
            · intro h
              simp at h
            · intro h
              have := h (expand_financial_query q) (by simp)
              rw [hc2] at this
              simp [Except.isOk, Except.toBool] at this
          · intro _
            refine ⟨?_, expand_financial_query q, e2,
              by simp [multi_strategy_query, hc, if_neg hcond, if_pos hne], hc2, ?_⟩ <;>
              simp [query, multi_strategy_query, hc, if_neg hcond, if_pos hne,
                chainToQueryResult, hc2]
        · constructor
          · simp only [query, multi_strategy_query, hc, if_neg hcond, if_pos hne,
              chainToQueryResult, hc2]
            constructor
            · intro _ x hx
              rcases List.mem_cons.mp hx with rfl | hx
              · simp [hc, Except.isOk, Except.toBool]
              · have hx2 := List.mem_singleton.mp hx
                subst hx2
                simp [hc2, Except.isOk, Except.toBool]
            · intro _
              trivial
          · simp only [query, multi_strategy_query, hc, if_neg hcond, if_pos hne,
              chainToQueryResult, hc2]
            intro h
            simp at h
      · constructor
        · simp only [query, multi_strategy_query, hc, if_neg hcond, if_neg hne]
          simp [hc, Except.isOk, Except.toBool]
        · simp only [query, multi_strategy_query, hc, if_neg hcond, if_neg hne]
          intro h
          simp at h

/-- Witness for C7 at a chain whose call raises. -/
theorem c7_witness :
    (query (fun _ => Except.error ("boom").data) ("hi").data).source_documents = [] ∧
    ∃ x e, x ∈ (multi_strategy_query (fun _ => Except.error ("boom").data) ("hi").data).2 ∧
      (fun _ : Str => Except.error ("boom").data) x = (Except.error e : Except Str ChainRes) ∧
      (query (fun _ => Except.error ("boom").data) ("hi").data).answer = errorHead ++ e :=
  (c7_query_no_exception (fun _ => Except.error ("boom").data) ("hi").data).2 rfl

/-- **C8**: `query_with_filter` restores the retriever search kwargs to their
pre-call value whether the chain call returns normally or raises (the
`finally` block), performs zero kwargs assignments when neither company nor
year is given, and — for the duration of the single call — runs the chain
with `{"k": 15, "filter": filter_dict}` whenever a filter was requested. -/
theorem c8_filter_scoped (chain : SearchKwargs → Str → Except Str ChainRes)
    (kwargs0 : SearchKwargs) (question : Str) (company year : Option Str) :
    ((query_with_filter chain kwargs0 question company year).2.1 = kwargs0) ∧
    (company = none → year = none →
      (query_with_filter chain kwargs0 question company year).2.2 = 0) ∧
    (∀ fd : List (Str × Str),
      fd = (if truthyOpt company then [(("company").data, company.getD [])] else []) ++
        (if truthyOpt year then [(("year").data, year.getD [])] else []) →
      fd ≠ [] →
      (query_with_filter chain kwargs0 question company year).1 =
        chainToQueryResult (chain { k := 15, filter := some fd } question)) := by
  refine ⟨?_, ?_, ?_⟩
  · simp only [query_with_filter]
    split_ifs with h1 <;> simp
  · rintro rfl rfl
    simp [query_with_filter, truthyOpt]
  · intro fd hfd hne
    subst hfd
    simp only [query_with_filter]
    split_ifs <;> simp_all

/-- Witness for C8: no company/year filter, a raising chain; kwargs are
untouched. -/
theorem c8_witness :
    ((query_with_filter (fun _ _ => Except.error ("down").data)
        { k := 15, filter := none } ("q").data none none).2.1 =
      { k := 15, filter := none }) ∧
    ((query_with_filter (fun _ _ => Except.error ("down").data)
        { k := 15, filter := none } ("q").data none none).2.2 = 0) :=
  ⟨(c8_filter_scoped (fun _ _ => Except.error ("down").data)
      { k := 15, filter := none } ("q").data none none).1,
    (c8_filter_scoped (fun _ _ => Except.error ("down").data)
      { k := 15, filter := none } ("q").data none none).2.1 rfl rfl⟩

theorem bumpGroup_map_fst (d : Document) :
    ∀ gs : List (Str × GroupInfo),
      (bumpGroup d gs).map Prod.fst = insertIfNew (gs.map Prod.fst) (keyOf d) := by
  intro gs
  induction gs with
  | nil => simp [bumpGroup, insertIfNew]
  | cons g rest ih =>
    obtain ⟨k2, info⟩ := g
    by_cases h2 : k2 = keyOf d
    · subst h2
      simp [bumpGroup, insertIfNew]
    · simp only [bumpGroup, if_neg h2, List.map_cons, ih, insertIfNew, List.mem_cons]
      by_cases hmem : keyOf d ∈ rest.map Prod.fst
      · simp [hmem, Ne.symm h2]
      · simp [hmem, Ne.symm h2]

theorem sources_map_fst_fold :
    ∀ (docs : List Document) (gs : List (Str × GroupInfo)),
      (docs.foldl (fun a d => bumpGroup d a) gs).map Prod.fst =
        (docs.map keyOf).foldl insertIfNew (gs.map Prod.fst) := by
  intro docs
  induction docs with
  | nil => simp
  | cons d ds ih =>
    intro gs
    simp only [List.foldl_cons, List.map_cons, ih, bumpGroup_map_fst]

theorem countOfKey_cons_pos (k : Str) (info : GroupInfo) (rest : List (Str × GroupInfo)) :
    countOfKey k ((k, info) :: rest) = info.count := by
  simp [countOfKey, List.find?]

theorem countOfKey_cons_neg (k k2 : Str) (info : GroupInfo) (rest : List (Str × GroupInfo))
    (h : k2 ≠ k) : countOfKey k ((k2, info) :: rest) = countOfKey k rest := by
  simp [countOfKey, List.find?, h]

theorem countOfKey_bump (k : Str) (d : Document) :
    ∀ gs : List (Str × GroupInfo),
      countOfKey k (bumpGroup d gs) =
        countOfKey k gs + (if keyOf d = k then 1 else 0) := by
  intro gs
  induction gs with
  | nil =>
    by_cases h : keyOf d = k <;> simp [bumpGroup, countOfKey, List.find?, h]
  | cons g rest ih =>
    obtain ⟨k2, info⟩ := g
    by_cases h2 : k2 = keyOf d
    · subst h2
      rw [show bumpGroup d ((keyOf d, info) :: rest) =
          (keyOf d, { info with count := info.count + 1 }) :: rest from by
        rw [bumpGroup]; simp]
      by_cases hk : keyOf d = k
      · subst hk
        rw [countOfKey_cons_pos, countOfKey_cons_pos, if_pos rfl]
      · rw [countOfKey_cons_neg _ _ _ _ hk, countOfKey_cons_neg _ _ _ _ hk, if_neg hk]
        simp
    · rw [show bumpGroup d ((k2, info) :: rest) = (k2, info) :: bumpGroup d rest from by
        rw [bumpGroup]; rw [if_neg h2]]
      by_cases hk : k2 = k
      · subst hk
        have hdk : ¬ keyOf d = k2 := fun h => h2 h.symm
        rw [countOfKey_cons_pos, countOfKey_cons_pos, if_neg hdk]
        simp
      · rw [countOfKey_cons_neg _ _ _ _ hk, countOfKey_cons_neg _ _ _ _ hk, ih]

theorem countOfKey_fold :
    ∀ (docs : List Document) (gs : List (Str × GroupInfo)) (k : Str),
      countOfKey k (docs.foldl (fun a d => bumpGroup d a) gs) =
        countOfKey k gs + (docs.filter (fun d => decide (keyOf d = k))).length := by
  intro docs
  induction docs with
  | nil => simp
  | cons d ds ih =>
    intro gs k
    simp only [List.foldl_cons, ih, countOfKey_bump, List.filter_cons]
    by_cases h : keyOf d = k
    · simp [h, Nat.add_comm, Nat.add_assoc, Nat.add_left_comm]
    · simp [h]

theorem find_of_mem_nodup :
    ∀ (gs : List (Str × GroupInfo)) (k : Str) (info : GroupInfo),
      (k, info) ∈ gs → (gs.map Prod.fst).Nodup →
      gs.find? (fun g => decide (g.1 = k)) = some (k, info) := by
  intro gs
  induction gs with
  | nil => simp
  | cons g rest ih =>
    intro k info hmem hnd
    obtain ⟨k2, info2⟩ := g
    rcases List.mem_cons.mp hmem with heq | hmem2
    · rw [← heq]
      simp [List.find?]
    · by_cases hk : k2 = k
      · exfalso
        subst hk
        have hin : k2 ∈ rest.map Prod.fst := List.mem_map.mpr ⟨(k2, info), hmem2, rfl⟩
        simp only [List.map_cons, List.nodup_cons] at hnd
        exact hnd.1 hin
      · rw [List.find?_cons_of_neg _ (by simpa using hk)]
        simp only [List.map_cons, List.nodup_cons] at hnd
        exact ih k info hmem2 hnd.2

/-- **C6** (amended): `format_sources` returns the exact sentinel
`"No sources available"` for an empty chunk list; for a non-empty list it
groups chunks by the dict key string `"company - year"` in first-seen order —
one group per distinct key, carrying that key's chunk count (this coincides
with grouping by the (company, year) pair whenever distinct pairs yield
distinct joined keys, but not in general, see the counterexample); the
spec example of 3 (BMW, 2023) chunks followed by 1 (Ford, 2022) chunk yields
exactly the two groups with counts 3 and 1, in that order. -/
theorem c6_format_sources_grouping (docs : List Document) :
    (format_sources [] = ("No sources available").data) ∧
    ((sources_by_company docs).map (fun g => (g.1, g.2.count)) = keyGroups docs) ∧
    ((sources_by_company
        [ { page_content := ("c1").data,
            metadata := { company := ("BMW").data, source_file := ("bmw_2023.pdf").data,
                          year := ("2023").data, page := 1 } },
          { page_content := ("c2").data,
            metadata := { company := ("BMW").data, source_file := ("bmw_2023.pdf").data,
                          year := ("2023").data, page := 2 } },
          { page_content := ("c3").data,
            metadata := { company := ("BMW").data, source_file := ("bmw_2023.pdf").data,
                          year := ("2023").data, page := 3 } },
          { page_content := ("c4").data,
            metadata := { company := ("Ford").data, source_file := ("ford_2022.pdf").data,
                          year := ("2022").data, page := 1 } } ]).map
        (fun g => (g.1, g.2.count)) =
      [((("BMW - 2023").data : Str), 3), ((("Ford - 2022").data : Str), 1)]) := by
  have hfst : (sources_by_company docs).map Prod.fst = firstSeenDedup (docs.map keyOf) := by
    simpa [sources_by_company, firstSeenDedup] using sources_map_fst_fold docs []
  have hnodup : ((sources_by_company docs).map Prod.fst).Nodup := by
    rw [hfst]; exact firstSeenDedup_nodup _
  have hcount : ∀ k info, (k, info) ∈ sources_by_company docs →
      info.count = (docs.filter (fun d => decide (keyOf d = k))).length := by
    intro k info hmem
    have hfind := find_of_mem_nodup _ k info hmem hnodup
    have h1 : countOfKey k (sources_by_company docs) = info.count := by
      simp [countOfKey, hfind]
    have h2 := countOfKey_fold docs [] k
    have h0 : countOfKey k ([] : List (Str × GroupInfo)) = 0 := by
      simp [countOfKey, List.find?]
    rw [h0] at h2
    rw [sources_by_company] at h1
    omega
  refine ⟨by decide, ?_, by decide⟩
  rw [keyGroups, ← hfst, List.map_map]
  apply List.map_congr_left
  intro g hg
  obtain ⟨k, info⟩ := g
  have := hcount k info hg
  simp [this]

/-- Counterexample for C6 as stated: two chunks with distinct
(company, year) pairs — ("A", "B - C") and ("A - B", "C") — collide on the
dict key "A - B - C", so the code renders one group of count 2 where grouping
by the (company, year) pair would render two groups. -/
theorem c6_counterexample :
    ((sources_by_company
        [ { page_content := ("t1").data,
            metadata := { company := ("A").data, source_file := ("f1.pdf").data,
                          year := ("B - C").data, page := 1 } },
          { page_content := ("t2").data,
            metadata := { company := ("A - B").data, source_file := ("f2.pdf").data,
                          year := ("C").data, page := 2 } } ]).length = 1) ∧
    ((pairGroups
        [ { page_content := ("t1").data,
            metadata := { company := ("A").data, source_file := ("f1.pdf").data,
                          year := ("B - C").data, page := 1 } },
          { page_content := ("t2").data,
            metadata := { company := ("A - B").data, source_file := ("f2.pdf").data,
                          year := ("C").data, page := 2 } } ]).length = 2) ∧
    ((("A").data, ("B - C").data) ≠ ((("A - B").data : Str), (("C").data : Str))) := by
  refine ⟨by decide, by decide, by decide⟩

/-- Counterexample for C2 as stated: with no persisted index on disk
(`disk = none`), `load_vectorstore` raises the very same Empty-style
`ValueError` ("Vector store is empty. ...") that it raises for an existing
index with zero entries — there is no distinct NotFound-style error, because
the backing Chroma constructor get-or-creates an empty collection instead of
raising on a missing index. -/
theorem c2_counterexample :
    (load_vectorstore none).1 = Except.error emptyStoreMsg ∧
    (load_vectorstore (some 0)).1 = Except.error emptyStoreMsg ∧
    (load_vectorstore none).1 = (load_vectorstore (some 0)).1 ∧
    containsSub ("empty").data emptyStoreMsg = true := by
  refine ⟨rfl, rfl, rfl, by decide⟩

/-- **C2** (amended): `load_vectorstore` fails with the Empty-style
`ValueError` both when no persisted index exists (the store opens as a fresh
empty collection) and when the index exists with zero entries; when the index
holds at least one entry it succeeds and leaves the manager holding the loaded
store. -/
theorem c2_load_vectorstore (disk : Option Nat) :
    ((disk = none ∨ disk = some 0) →
      load_vectorstore disk = (Except.error emptyStoreMsg, some 0)) ∧
    (∀ n, disk = some n → 0 < n →
      load_vectorstore disk = (Except.ok n, some n)) := by
  constructor
  · rintro (rfl | rfl) <;> rfl
  · rintro n rfl hn
    simp [load_vectorstore, chromaOpen, Nat.pos_iff_ne_zero.mp hn]

/-- Witness for C2 at an absent index and at an index of 3 entries. -/
theorem c2_witness :
    load_vectorstore none = (Except.error emptyStoreMsg, some 0) ∧
    load_vectorstore (some 3) = (Except.ok 3, some 3) :=
  ⟨(c2_load_vectorstore none).1 (Or.inl rfl),
    (c2_load_vectorstore (some 3)).2 3 rfl (by decide)⟩
